import Mathlib

/-!
Shallow embedding of the locomotion control subsystem of the WaterTread/web
repository: the character-controls input aggregator and locomotion state
machine (`src/app/createScene.ts`, duplicated in `src/unnamed/part_000`) and
the pointer controller with click-to-move planning (second `PointerController`
in `src/unnamed/part_003`).

JavaScript numbers are modelled by real numbers; `Math.sqrt`, `Math.sin`,
`Math.cos`, `Math.atan2` and `Math.hypot` by their real counterparts.
Babylon.js `Vector3` is modelled by `Vec3` below, with the exact operations
the source uses (`subtract`, `scale`, `dot`, `cross`, `length`,
`normalizeFromLength`, `normalize`).
-/

namespace WaterTread

open Real

/-- Babylon.js `Vector3`, as used by the locomotion code. -/
structure Vec3 where
  x : ℝ
  y : ℝ
  z : ℝ


namespace Vec3

/-- `Vector3.add`. -/
def add (a b : Vec3) : Vec3 := ⟨a.x + b.x, a.y + b.y, a.z + b.z⟩

/-- `Vector3.subtract`. -/
def sub (a b : Vec3) : Vec3 := ⟨a.x - b.x, a.y - b.y, a.z - b.z⟩

/-- `Vector3.scale`. -/
def scale (a : Vec3) (k : ℝ) : Vec3 := ⟨a.x * k, a.y * k, a.z * k⟩

/-- `Vector3.dot`. -/
def dot (a b : Vec3) : ℝ := a.x * b.x + a.y * b.y + a.z * b.z

/-- `Vector3.cross` (Babylon's left-handed cross product formula). -/
def cross (a b : Vec3) : Vec3 :=
  ⟨a.y * b.z - a.z * b.y, a.z * b.x - a.x * b.z, a.x * b.y - a.y * b.x⟩

/-- `Vector3.length`. -/
noncomputable def length (a : Vec3) : ℝ :=
  Real.sqrt (a.x * a.x + a.y * a.y + a.z * a.z)

/-- `Vector3.normalizeFromLength(len)`: unchanged when `len` is `0` or `1`,
otherwise scaled by `1 / len`. -/
noncomputable def normalizeFromLength (a : Vec3) (len : ℝ) : Vec3 :=
  if len = 0 ∨ len = 1 then a else a.scale (1 / len)

/-- `Vector3.normalize()` = `normalizeFromLength(length())`. -/
noncomputable def normalize (a : Vec3) : Vec3 :=
  a.normalizeFromLength a.length

/-- The zero vector (`Vector3.ZeroReadOnly`, `inputDirection.set(0,0,0)`). -/
def zero : Vec3 := ⟨0, 0, 0⟩

/-- `Vector3.set(x, y, z)` with the middle component forced to `0`, as in
`inputDirection.set(localX, 0, localZ)`. -/
def setY0 (a : Vec3) : Vec3 := ⟨a.x, 0, a.z⟩

end Vec3

/-- Rotation of a vector by the quaternion `Quaternion.FromEulerAngles(0, yaw, 0)`
(Babylon's `applyRotationQuaternion` for a pure yaw rotation about the world
Y axis): `x' = x cos yaw + z sin yaw`, `y' = y`, `z' = z cos yaw - x sin yaw`. -/
noncomputable def rotateY (yaw : ℝ) (v : Vec3) : Vec3 :=
  ⟨v.x * Real.cos yaw + v.z * Real.sin yaw, v.y,
   v.z * Real.cos yaw - v.x * Real.sin yaw⟩

/-- The discrete movement state `CharState` of `createScene.ts` /
`part_000`: `"IN_AIR" | "ON_GROUND" | "START_JUMP"`. -/
inductive CharState where
  | IN_AIR
  | ON_GROUND
  | START_JUMP
deriving DecidableEq

/-- The mutable fields of `CharacterControls` (createScene.ts): the shared
intent state written by the input handlers and read by the state machine. -/
structure Controls where
  inputDirection : Vec3
  wantJump : Bool
  yaw : ℝ
  turnInput : ℝ


/-- The support query result `checkSupport(dt, down)` returned by the physics
engine (black box): whether the capsule is supported, the averaged surface
normal and the averaged surface velocity. `supported` models
`supportedState === CharacterSupportedState.SUPPORTED`. -/
structure SupportInfo where
  supported : Bool
  averageSurfaceNormal : Vec3
  averageSurfaceVelocity : Vec3


/-- `characterGravity = new Vector3(0, -18, 0)`. -/
def characterGravity : Vec3 := ⟨0, -18, 0⟩

/-- `upWorld = characterGravity.normalizeToNew().scaleInPlace(-1.0)`. -/
noncomputable def upWorld : Vec3 := (characterGravity.normalize).scale (-1)

/-- `inAirSpeed = 8.0`. -/
def inAirSpeed : ℝ := 8
/-- `onGroundSpeed = 10.0`. -/
def onGroundSpeed : ℝ := 10
/-- `jumpHeight = 1.5`. -/
noncomputable def jumpHeight : ℝ := 3 / 2
/-- `forwardLocalSpace = new Vector3(0, 0, 1)`. -/
def forwardLocalSpace : Vec3 := ⟨0, 0, 1⟩
/-- `turnSpeed = 2.2` (keyboard turn rate, createScene.ts). -/
noncomputable def turnSpeedKeyboard : ℝ := 22 / 10

/-- `getNextState(supportInfo)` from `createScene.ts` lines 871-890 /
`part_000` lines 65-84: the pure transition function of the locomotion state
machine, reading the current state, the support query and `controls.wantJump`. -/
def getNextState (state : CharState) (supported : Bool) (wantJump : Bool) :
    CharState :=
  match state with
  | .IN_AIR => if supported then .ON_GROUND else .IN_AIR
  | .ON_GROUND =>
      if ¬supported then .IN_AIR
      else if wantJump then .START_JUMP
      else .ON_GROUND
  | .START_JUMP => .IN_AIR

/-- The physics engine's movement-resolution primitive
`characterController.calculateMovement(dt, forward, surfaceRef, currentVelocity,
surfaceVelocity, desiredVelocity, up)`: a black box, passed as a parameter. -/
def CalcMove : Type :=
  ℝ → Vec3 → Vec3 → Vec3 → Vec3 → Vec3 → Vec3 → Vec3

/-- The grounded post-processing of `getDesiredVelocity` (createScene.ts lines
941-959 / `part_000` lines 135-152), applied to the `calculateMovement`
output: subtract the surface velocity; if the relative velocity has an
up-component above `1e-3`, reproject it via `(normal × v̂) × up` scaled by
`|v| / (normal · up)`; finally re-add the surface velocity. -/
noncomputable def groundedReproject (outputVelocity0 surfNormal surfVel : Vec3) :
    Vec3 :=
  let outputVelocity := outputVelocity0.sub surfVel
  if outputVelocity.dot upWorld > 1 / 1000 then
    let velLen := outputVelocity.length
    let outN := outputVelocity.normalizeFromLength velLen
    let horizLen := velLen / surfNormal.dot upWorld
    let c := surfNormal.cross outN
    let reprojected := (c.cross upWorld).scale horizLen
    reprojected.add surfVel
  else
    outputVelocity.add surfVel

/-- `getDesiredVelocity(deltaTime, supportInfo, orientation, currentVelocity)`
from `createScene.ts` lines 892-964 / `part_000` lines 86-158. The character
orientation is the pure-yaw quaternion `FromEulerAngles(0, yaw, 0)`, so it is
represented by the yaw angle. Returns the updated machine state (the source
mutates the captured `state` variable) together with the desired velocity. -/
noncomputable def getDesiredVelocity (calcMove : CalcMove) (deltaTime : ℝ)
    (support : SupportInfo) (yaw : ℝ) (currentVelocity : Vec3)
    (state : CharState) (controls : Controls) : CharState × Vec3 :=
  let state1 := getNextState state support.supported controls.wantJump
  let forwardWorld := rotateY yaw forwardLocalSpace
  match state1 with
  | .IN_AIR =>
      let desiredVelocity := rotateY yaw (controls.inputDirection.scale inAirSpeed)
      let out0 := calcMove deltaTime forwardWorld upWorld currentVelocity
        Vec3.zero desiredVelocity upWorld
      let out1 := out0.add (upWorld.scale (-(out0.dot upWorld)))
      let out2 := out1.add (upWorld.scale (currentVelocity.dot upWorld))
      let out3 := out2.add (characterGravity.scale deltaTime)
      (state1, out3)
  | .ON_GROUND =>
      let desiredVelocity := rotateY yaw (controls.inputDirection.scale onGroundSpeed)
      let out0 := calcMove deltaTime forwardWorld support.averageSurfaceNormal
        currentVelocity support.averageSurfaceVelocity desiredVelocity upWorld
      (state1, groundedReproject out0 support.averageSurfaceNormal
        support.averageSurfaceVelocity)
  | .START_JUMP =>
      let u := Real.sqrt (2 * characterGravity.length * jumpHeight)
      let curRelVel := currentVelocity.dot upWorld
      (state1, currentVelocity.add (upWorld.scale (u - curRelVel)))

/-- `CharacterControls.stepTurn(dt, turnSpeedRadPerSec)`:
`yaw += turnInput * turnSpeed * dt`. -/
def stepTurn (dt turnSpeedRadPerSec : ℝ) (c : Controls) : Controls :=
  { c with yaw := c.yaw + c.turnInput * turnSpeedRadPerSec * dt }

/-- The state owned by the per-physics-step callback: the machine state, the
shared controls, the character orientation quaternion (a pure yaw rotation,
represented by its yaw angle) and the camera's `rotation.y`. -/
structure World where
  state : CharState
  controls : Controls
  orientYaw : ℝ
  cameraRotY : ℝ


/-- A command issued to the physics engine by the step callback. -/
inductive EngineCmd where
  | setVelocity (v : Vec3)
  | integrate (dt : ℝ)


/-- The `onAfterPhysicsObservable` callback body (createScene.ts lines
985-1011 / `part_000` lines 178-204), after `dt` has been computed from the
engine sub-timestep or the scene delta time. If `dt <= 0` the body returns at
once; otherwise it queries support (modelled as the input `support`), runs
`stepTurn`, refreshes the orientation quaternion and camera yaw from
`controls.yaw`, computes the desired velocity (which also advances the state
machine), and issues `setVelocity` followed by `integrate` to the engine.
Returns the updated owned state and the list of engine commands issued. -/
noncomputable def afterPhysicsStep (calcMove : CalcMove) (dt : ℝ)
    (support : SupportInfo) (currentVelocity : Vec3) (w : World) :
    World × List EngineCmd :=
  if dt ≤ 0 then (w, [])
  else
    let c1 := stepTurn dt turnSpeedKeyboard w.controls
    let oYaw := c1.yaw
    let camY := c1.yaw
    let sv := getDesiredVelocity calcMove dt support oYaw currentVelocity
      w.state c1
    ({ state := sv.1, controls := c1, orientYaw := oYaw, cameraRotY := camY },
     [.setVelocity sv.2, .integrate dt])

/-! ## Input aggregator: `CharacterControls.attach` keyboard handlers
(createScene.ts lines 1941-1973). -/

/-- The `KEYDOWN` branch of the keyboard observer in
`CharacterControls.attach`. -/
def keyDown (k : String) (c : Controls) : Controls :=
  if k = "w" ∨ k = "ArrowUp" then
    { c with inputDirection := { c.inputDirection with z := 1 } }
  else if k = "s" ∨ k = "ArrowDown" then
    { c with inputDirection := { c.inputDirection with z := -1 } }
  else if k = "a" ∨ k = "ArrowLeft" then { c with turnInput := -1 }
  else if k = "d" ∨ k = "ArrowRight" then { c with turnInput := 1 }
  else if k = " " then { c with wantJump := true }
  else c

/-- The `KEYUP` branch of the keyboard observer in `CharacterControls.attach`:
an unconditional `inputDirection.z = 0` for any forward/back key, then an
independent if/else-if chain zeroing `turnInput` for any turn key or clearing
`wantJump` for Space. -/
def keyUp (k : String) (c : Controls) : Controls :=
  let c1 :=
    if k = "w" ∨ k = "s" ∨ k = "ArrowUp" ∨ k = "ArrowDown" then
      { c with inputDirection := { c.inputDirection with z := 0 } }
    else c
  if k = "a" ∨ k = "d" ∨ k = "ArrowLeft" ∨ k = "ArrowRight" then
    { c1 with turnInput := 0 }
  else if k = " " then { c1 with wantJump := false }
  else c1

/-- A keyboard event delivered by the scene's keyboard observable. -/
inductive KeyEvent where
  | down (k : String)
  | up (k : String)

/-- Dispatch of one keyboard event by the observer in
`CharacterControls.attach`. -/
def applyKeyEvent (e : KeyEvent) (c : Controls) : Controls :=
  match e with
  | .down k => keyDown k c
  | .up k => keyUp k c

/-- Processing a sequence of keyboard events in dispatch order. -/
def processEvents (evs : List KeyEvent) (c : Controls) : Controls :=
  evs.foldl (fun c e => applyKeyEvent e c) c

/-- Whether key `k` is held after the event sequence `evs`: its most recent
event is a key-down. (Derived bookkeeping for stating claims; the source
keeps no such record.) -/
def held (evs : List KeyEvent) (k : String) : Bool :=
  evs.foldl
    (fun h e =>
      match e with
      | .down k2 => if k2 = k then true else h
      | .up k2 => if k2 = k then false else h)
    false

/-- The freshly attached controls: `inputDirection = (0,0,0)`,
`wantJump = false`, `yaw = 0`, `turnInput = 0` (field initializers of
`CharacterControls`). -/
def initialControls : Controls :=
  { inputDirection := Vec3.zero, wantJump := false, yaw := 0, turnInput := 0 }

/-! ## Pointer controller (second `PointerController` in
`src/unnamed/part_003`, lines 175-433). -/

/-- `event.pointerType`. -/
inductive PtrType where
  | mouse
  | touch
  | pen
deriving DecidableEq

/-- The fields of a `PointerEvent` the controller reads. -/
structure PtrEvent where
  clientX : ℝ
  clientY : ℝ
  pointerId : ℤ
  pointerType : PtrType

/-- The mutable state of `PointerController` (second version). -/
structure PointerState where
  isPointerDown : Bool
  isDragging : Bool
  pointerDownX : ℝ
  pointerDownY : ℝ
  prevX : ℝ
  prevY : ℝ
  targetPoint : Option Vec3
  activePointerId : Option ℤ
  activePointerType : Option PtrType
  lastDistance : Option ℝ
  lastDistanceTimeMs : ℝ

/-- `dragThresholdPxMouse = 3`. -/
def dragThresholdPxMouse : ℝ := 3
/-- `dragThresholdPxTouch = 10`. -/
def dragThresholdPxTouch : ℝ := 10
/-- `yawSpeed = 0.003` rad/pixel. -/
noncomputable def yawSpeedPtr : ℝ := 3 / 1000
/-- `stopDistance = 0.35` meters. -/
noncomputable def stopDistance : ℝ := 35 / 100
/-- `clickToMoveStrength = 0.5`. -/
noncomputable def clickToMoveStrength : ℝ := 1 / 2
/-- `turnSpeed = 4.0` rad/sec (planner turn rate). -/
def turnSpeedPtr : ℝ := 4
/-- `stuckEpsilon = 0.05` meters. -/
noncomputable def stuckEpsilon : ℝ := 5 / 100
/-- `stuckTimeoutMs = 600`. -/
def stuckTimeoutMs : ℝ := 600

/-- `Math.hypot`. -/
noncomputable def hypot (a b : ℝ) : ℝ := Real.sqrt (a * a + b * b)

/-- `PointerController.onPointerMove` (part_003 lines 278-305): ignore when
no pointer is down or the event is not the captured pointer; otherwise
classify as a drag once the total displacement exceeds the per-device
threshold, and while dragging rotate the yaw by `dx * yawSpeed` and clear the
click target; finally remember the event position. -/
noncomputable def onPointerMove (e : PtrEvent) (s : PointerState)
    (c : Controls) : PointerState × Controls :=
  if ¬s.isPointerDown then (s, c)
  else if s.activePointerId ≠ some e.pointerId then (s, c)
  else
    let dx := e.clientX - s.prevX
    let dist := hypot (e.clientX - s.pointerDownX) (e.clientY - s.pointerDownY)
    let threshold :=
      if s.activePointerType = some PtrType.touch then dragThresholdPxTouch
      else dragThresholdPxMouse
    let dragging := if dist > threshold then true else s.isDragging
    if dragging then
      ({ s with
          isDragging := dragging
          targetPoint := none
          prevX := e.clientX
          prevY := e.clientY },
       { c with yaw := c.yaw + dx * yawSpeedPtr })
    else
      ({ s with
          isDragging := dragging
          prevX := e.clientX
          prevY := e.clientY }, c)

/-- Effect of a keyboard key-down on the combined pointer-controller /
controls state. `PointerController` subscribes only to the scene's pointer
observable (part_003 lines 239-253), so a keyboard event reaches only the
`CharacterControls` keyboard observer and leaves the pointer state — the
click target included — untouched. -/
def handleKeyDown (k : String) (s : PointerState) (c : Controls) :
    PointerState × Controls :=
  (s, keyDown k c)

/-- JavaScript `Math.atan2(y, x)` on real numbers (signed zeros ignored). -/
noncomputable def atan2 (y x : ℝ) : ℝ :=
  if 0 < x then Real.arctan (y / x)
  else if x < 0 then
    (if 0 ≤ y then Real.arctan (y / x) + π else Real.arctan (y / x) - π)
  else if 0 < y then π / 2
  else if y < 0 then -(π / 2)
  else 0

/-- The loop `while (a > Math.PI) a -= Math.PI * 2` of
`PointerController.wrapAngle`, with explicit fuel (the loop runs at most
`⌈(a - π) / (2π)⌉` times). -/
noncomputable def wrapDown : ℕ → ℝ → ℝ
  | 0, a => a
  | n + 1, a => if a > π then wrapDown n (a - 2 * π) else a

/-- The loop `while (a < -Math.PI) a += Math.PI * 2` of
`PointerController.wrapAngle`, with explicit fuel. -/
noncomputable def wrapLift : ℕ → ℝ → ℝ
  | 0, a => a
  | n + 1, a => if a < -π then wrapLift n (a + 2 * π) else a

/-- `PointerController.wrapAngle` (part_003 lines 427-432): the two
sequential while loops, run to completion (the chosen fuel bounds the number
of iterations each loop can take). -/
noncomputable def wrapAngle (a : ℝ) : ℝ :=
  wrapLift ⌈(-π - a) / (2 * π)⌉₊ (wrapDown ⌈(a - π) / (2 * π)⌉₊ a)

/-- `PointerController.lerpAngle` (part_003 lines 421-425). -/
noncomputable def lerpAngle (current target t : ℝ) : ℝ :=
  let a := wrapAngle (target - current)
  let clamped := min (max t 0) 1
  current + a * clamped

/-- Lines 401-414 of part_003: rotate the normalized approach direction into
body-local axes with the current yaw, write it to `controls.inputDirection`,
and rescale it to magnitude `clickToMoveStrength` when nonzero. -/
noncomputable def steerToTarget (s : PointerState) (c : Controls)
    (toDir : Vec3) : PointerState × Controls :=
  let yaw := c.yaw
  let localX := toDir.x * Real.cos yaw - toDir.z * Real.sin yaw
  let localZ := toDir.x * Real.sin yaw + toDir.z * Real.cos yaw
  let d0 : Vec3 := ⟨localX, 0, localZ⟩
  let len := d0.length
  if len > 0 then
    (s, { c with inputDirection := d0.scale (clickToMoveStrength / len) })
  else (s, { c with inputDirection := d0 })

/-- `PointerController.stepClickToMove` (part_003 lines 359-415).
`deltaTimeMs` is `scene.deltaTime ?? 0`, `now` is `performance.now()`, `pos`
is `character.getPosition()`. Returns the updated pointer state and
controls. -/
noncomputable def stepClickToMove (deltaTimeMs now : ℝ) (pos : Vec3)
    (s : PointerState) (c : Controls) : PointerState × Controls :=
  match s.targetPoint with
  | none => (s, c)
  | some tp =>
      let toVec0 := (tp.sub pos).setY0
      let dist := toVec0.length
      if dist < stopDistance then
        ({ s with
            targetPoint := none
            lastDistance := none },
         { c with inputDirection := Vec3.zero })
      else
        let toDir := toVec0.normalize
        let desiredYaw := atan2 toDir.x toDir.z
        let dt := deltaTimeMs / 1000
        let c1 :=
          if dt > 0 then
            { c with yaw := lerpAngle c.yaw desiredYaw (turnSpeedPtr * dt) }
          else c
        match s.lastDistance with
        | none =>
            steerToTarget
              { s with
                  lastDistance := some dist
                  lastDistanceTimeMs := now }
              c1 toDir
        | some ld =>
            if dist < ld - stuckEpsilon then
              steerToTarget
                { s with
                    lastDistance := some dist
                    lastDistanceTimeMs := now }
                c1 toDir
            else if now - s.lastDistanceTimeMs > stuckTimeoutMs then
              ({ s with
                  targetPoint := none
                  lastDistance := none },
               { c1 with inputDirection := Vec3.zero })
            else steerToTarget s c1 toDir

/-! ## General lemmas about the embedded operations. -/

@[simp] theorem length_zero_vec : Vec3.length Vec3.zero = 0 := by
  simp [Vec3.length, Vec3.zero]

theorem upWorld_eval : upWorld = ⟨0, 1, 0⟩ := by
  have h18 : Real.sqrt (0 * 0 + -18 * -18 + 0 * 0) = 18 := by
    rw [show (0 * 0 + -18 * -18 + 0 * 0 : ℝ) = 18 ^ 2 by norm_num]
    exact Real.sqrt_sq (by norm_num)
  simp only [upWorld, characterGravity, Vec3.normalize, Vec3.length,
    Vec3.normalizeFromLength, h18]
  norm_num [Vec3.scale]

/-! ## C1: `dt <= 0` skips the physics-step callback entirely. -/

/-- C1: for every physics-step callback in which the computed timestep `dt`
is `≤ 0`, the step is skipped entirely: the owned state (machine state,
controls, orientation, camera yaw) is returned unchanged and no engine
command — in particular no velocity write and no integrate — is issued. -/
theorem c1_dt_nonpos_step_noop (calcMove : CalcMove) (dt : ℝ)
    (support : SupportInfo) (currentVelocity : Vec3) (w : World)
    (h : dt ≤ 0) :
    afterPhysicsStep calcMove dt support currentVelocity w = (w, []) := by
  unfold afterPhysicsStep
  rw [if_pos h]

/-- Witness for C1 at a concrete input: `dt = 0`, grounded world state. -/
theorem c1_dt_nonpos_step_noop_witness :
    (0 : ℝ) ≤ 0 ∧
      afterPhysicsStep (fun _ _ _ _ _ _ _ => Vec3.zero) 0
        ⟨true, ⟨0, 1, 0⟩, Vec3.zero⟩ Vec3.zero
        ⟨CharState.ON_GROUND, initialControls, 0, 0⟩ =
        (⟨CharState.ON_GROUND, initialControls, 0, 0⟩, []) :=
  ⟨le_refl 0,
   c1_dt_nonpos_step_noop (fun _ _ _ _ _ _ _ => Vec3.zero) 0
     ⟨true, ⟨0, 1, 0⟩, Vec3.zero⟩ Vec3.zero
     ⟨CharState.ON_GROUND, initialControls, 0, 0⟩ (le_refl 0)⟩

/-! ## C10: the planner step with no active target is a no-op. -/

/-- C10: whenever `stepClickToMove` runs while `targetPoint` is `null`, it
returns immediately and leaves both the pointer state and the shared controls
(`inputDirection`, `yaw`) unchanged. -/
theorem c10_step_no_target_noop (deltaTimeMs now : ℝ) (pos : Vec3)
    (s : PointerState) (c : Controls) (h : s.targetPoint = none) :
    stepClickToMove deltaTimeMs now pos s c = (s, c) := by
  unfold stepClickToMove
  rw [h]

/-- Witness for C10 at a concrete input. -/
theorem c10_step_no_target_noop_witness :
    (PointerState.mk false false 0 0 0 0 none none none none 0).targetPoint
        = none ∧
      stepClickToMove 16 100 Vec3.zero
        (PointerState.mk false false 0 0 0 0 none none none none 0)
        initialControls =
        (PointerState.mk false false 0 0 0 0 none none none none 0,
         initialControls) :=
  ⟨rfl,
   c10_step_no_target_noop 16 100 Vec3.zero
     (PointerState.mk false false 0 0 0 0 none none none none 0)
     initialControls rfl⟩

/-! ## C2: the Grounded → JumpStart transition does not clear `wantJump`. -/

/-- Counterexample to C2: a concrete physics step from `ON_GROUND` with the
support query reporting supported and `wantJump` set. The state machine
transitions to `START_JUMP`, yet `wantJump` is still `true` afterwards — the
flag is not consumed by the state machine (only the Space key-up handler in
`CharacterControls.attach` ever clears it). -/
theorem c2_wantjump_not_cleared_counterexample :
    ((afterPhysicsStep (fun _ _ _ _ _ _ _ => Vec3.zero) (1 / 100)
        ⟨true, ⟨0, 1, 0⟩, Vec3.zero⟩ Vec3.zero
        ⟨CharState.ON_GROUND, { initialControls with wantJump := true },
         0, 0⟩).1.state = CharState.START_JUMP) ∧
      ((afterPhysicsStep (fun _ _ _ _ _ _ _ => Vec3.zero) (1 / 100)
        ⟨true, ⟨0, 1, 0⟩, Vec3.zero⟩ Vec3.zero
        ⟨CharState.ON_GROUND, { initialControls with wantJump := true },
         0, 0⟩).1.controls.wantJump = true) := by
  constructor <;>
    norm_num [afterPhysicsStep, stepTurn, getDesiredVelocity, getNextState,
      initialControls]

/-- C2 as amended: when the machine is `ON_GROUND`, the support query reports
supported, the jump flag is set and `dt > 0`, the step transitions to
`START_JUMP`, but the jump intent flag is *not* cleared by the state machine:
it survives the transition unchanged (it is cleared only by the Space key-up
handler). -/
theorem c2_ground_to_jumpstart_keeps_wantjump (calcMove : CalcMove) (dt : ℝ)
    (support : SupportInfo) (currentVelocity : Vec3) (w : World)
    (hdt : 0 < dt) (hst : w.state = CharState.ON_GROUND)
    (hsup : support.supported = true) (hwj : w.controls.wantJump = true) :
    ((afterPhysicsStep calcMove dt support currentVelocity w).1.state =
        CharState.START_JUMP) ∧
      ((afterPhysicsStep calcMove dt support currentVelocity w).1.controls.wantJump
        = true) := by
  unfold afterPhysicsStep
  rw [if_neg (not_le.mpr hdt)]
  constructor
  · simp [getDesiredVelocity, getNextState, hst, hsup, stepTurn, hwj]
  · simp [stepTurn, hwj]

/-- Witness for the amended C2 at a concrete input. -/
theorem c2_ground_to_jumpstart_keeps_wantjump_witness :
    (0 : ℝ) < 1 / 100 ∧
      ((afterPhysicsStep (fun _ _ _ _ _ _ _ => Vec3.zero) (1 / 100)
          ⟨true, ⟨0, 1, 0⟩, Vec3.zero⟩ Vec3.zero
          ⟨CharState.ON_GROUND, { initialControls with wantJump := true },
           0, 0⟩).1.state = CharState.START_JUMP) ∧
      ((afterPhysicsStep (fun _ _ _ _ _ _ _ => Vec3.zero) (1 / 100)
          ⟨true, ⟨0, 1, 0⟩, Vec3.zero⟩ Vec3.zero
          ⟨CharState.ON_GROUND, { initialControls with wantJump := true },
           0, 0⟩).1.controls.wantJump = true) :=
  ⟨by norm_num,
   (c2_ground_to_jumpstart_keeps_wantjump (fun _ _ _ _ _ _ _ => Vec3.zero)
      (1 / 100) ⟨true, ⟨0, 1, 0⟩, Vec3.zero⟩ Vec3.zero
      ⟨CharState.ON_GROUND, { initialControls with wantJump := true }, 0, 0⟩
      (by norm_num) rfl rfl rfl).1,
   (c2_ground_to_jumpstart_keeps_wantjump (fun _ _ _ _ _ _ _ => Vec3.zero)
      (1 / 100) ⟨true, ⟨0, 1, 0⟩, Vec3.zero⟩ Vec3.zero
      ⟨CharState.ON_GROUND, { initialControls with wantJump := true }, 0, 0⟩
      (by norm_num) rfl rfl rfl).2⟩

/-! ## C3: the slope reprojection gains no vertical speed. -/

/-- C3: whenever the slope-reprojection branch of the grounded velocity
computation triggers — the surface-relative resolved velocity has an
up-component above `1e-3` — the surface-relative output of
`groundedReproject` has zero component along `upWorld`: the replacement
velocity `(normal × v̂) × up`, scaled by `|v| / (normal · up)`, is horizontal
for every surface normal and every resolved velocity. -/
theorem c3_reproject_no_vertical_gain (out0 surfNormal surfVel : Vec3)
    (h : (out0.sub surfVel).dot upWorld > 1 / 1000) :
    ((groundedReproject out0 surfNormal surfVel).sub surfVel).dot upWorld
      = 0 := by
  unfold groundedReproject
  rw [if_pos h, upWorld_eval]
  simp only [Vec3.sub, Vec3.add, Vec3.scale, Vec3.cross, Vec3.dot]
  ring

/-- Witness for C3 at a concrete input: resolved velocity `(0,1,0)`, normal
`(0,1,0)`, zero surface velocity. -/
theorem c3_reproject_no_vertical_gain_witness :
    ((Vec3.mk 0 1 0).sub Vec3.zero).dot upWorld > 1 / 1000 ∧
      ((groundedReproject ⟨0, 1, 0⟩ ⟨0, 1, 0⟩ Vec3.zero).sub Vec3.zero).dot
        upWorld = 0 :=
  ⟨by rw [upWorld_eval]; norm_num [Vec3.sub, Vec3.dot, Vec3.zero],
   c3_reproject_no_vertical_gain ⟨0, 1, 0⟩ ⟨0, 1, 0⟩ Vec3.zero
     (by rw [upWorld_eval]; norm_num [Vec3.sub, Vec3.dot, Vec3.zero])⟩

/-! ## C4: what cancels an active click-to-move target. -/

/-- Counterexample to C4: with a click target active, a keyboard movement
key-down (`"w"`, which sets the forward axis to `1`) does *not* clear the
target. `PointerController` subscribes only to the pointer observable, and
the `CharacterControls` keyboard handler never touches the pointer state, so
the target survives every keyboard movement input — only drag-rotate input
clears it. -/
theorem c4_keyboard_does_not_cancel_target_counterexample :
    ((handleKeyDown "w"
        (PointerState.mk false false 0 0 0 0 (some ⟨1, 2, 3⟩) none none none 0)
        initialControls).1.targetPoint = some ⟨1, 2, 3⟩) ∧
      ((handleKeyDown "w"
        (PointerState.mk false false 0 0 0 0 (some ⟨1, 2, 3⟩) none none none 0)
        initialControls).2.inputDirection.z = 1) := by
  constructor
  · rfl
  · simp [handleKeyDown, keyDown, initialControls]

/-- C4 as amended: a drag-rotate pointer-move event — one received while the
captured pointer is down and either already classified as a drag or moving
beyond the per-device drag threshold — clears the active click target on that
same event; keyboard input, by contrast, never touches the target (the
keyboard observer only mutates `CharacterControls`). -/
theorem c4_drag_cancels_target (e : PtrEvent) (s : PointerState) (c : Controls)
    (hdown : s.isPointerDown = true)
    (hid : s.activePointerId = some e.pointerId)
    (hdrag : s.isDragging = true ∨
      hypot (e.clientX - s.pointerDownX) (e.clientY - s.pointerDownY) >
        (if s.activePointerType = some PtrType.touch then dragThresholdPxTouch
         else dragThresholdPxMouse)) :
    ((onPointerMove e s c).1.targetPoint = none) ∧
      (∀ (k : String) (s2 : PointerState) (c2 : Controls),
        (handleKeyDown k s2 c2).1.targetPoint = s2.targetPoint) := by
  refine ⟨?_, fun k s2 c2 => rfl⟩
  unfold onPointerMove
  rw [hdown]
  simp only [Bool.not_true, Bool.false_eq_true, if_false, hid, ite_not]
  rcases hdrag with hdrag | hdrag
  · by_cases hdist :
      hypot (e.clientX - s.pointerDownX) (e.clientY - s.pointerDownY) >
        (if s.activePointerType = some PtrType.touch then dragThresholdPxTouch
         else dragThresholdPxMouse)
    · simp [hdist]
    · simp [hdist, hdrag]
  · simp [hdrag]

/-- Witness for the amended C4 at a concrete input: touch pointer id `7`
held down at `(0,0)`, moved to `(11,0)` — total displacement `11 > 10`
pixels — with a target active. -/
theorem c4_drag_cancels_target_witness :
    ((PointerState.mk true false 0 0 0 0 (some ⟨1, 2, 3⟩) (some 7)
        (some PtrType.touch) none 0).isPointerDown = true) ∧
      ((onPointerMove ⟨11, 0, 7, PtrType.touch⟩
        (PointerState.mk true false 0 0 0 0 (some ⟨1, 2, 3⟩) (some 7)
          (some PtrType.touch) none 0)
        initialControls).1.targetPoint = none) := by
  refine ⟨rfl, ?_⟩
  have h11 : hypot (11 - 0) (0 - 0) = 11 := by
    unfold hypot
    rw [show ((11 : ℝ) - 0) * (11 - 0) + (0 - 0) * (0 - 0) = 11 ^ 2 by
      norm_num]
    exact Real.sqrt_sq (by norm_num)
  exact (c4_drag_cancels_target ⟨11, 0, 7, PtrType.touch⟩
    (PointerState.mk true false 0 0 0 0 (some ⟨1, 2, 3⟩) (some 7)
      (some PtrType.touch) none 0)
    initialControls rfl rfl
    (Or.inr (by
      rw [h11, if_pos rfl]
      norm_num [dragThresholdPxTouch]))).1

/-! ## C5: key-up handling zeroes axes unconditionally. -/

/-- Counterexample to C5: after pressing and holding `w` then `s`, the
forward/back axis is `-1` (driven by the still-held `s`); releasing `w` — a
key that is not currently driving the axis — nevertheless zeroes the axis,
because the key-up handler keeps no record of held keys. -/
theorem c5_keyup_zeroes_driven_axis_counterexample :
    ((processEvents [KeyEvent.down "w", KeyEvent.down "s"]
        initialControls).inputDirection.z = -1) ∧
      (held [KeyEvent.down "w", KeyEvent.down "s"] "s" = true) ∧
      ((keyUp "w"
        (processEvents [KeyEvent.down "w", KeyEvent.down "s"]
          initialControls)).inputDirection.z = 0) := by
  refine ⟨?_, rfl, ?_⟩ <;>
    simp [processEvents, applyKeyEvent, keyDown, keyUp, initialControls]

/-- C5 as amended: the key-up handler zeroes an axis unconditionally — on
key-up of any forward/back key the move axis is set to `0`, and on key-up of
any turn key the turn axis is set to `0` — regardless of whether another key
for the same axis is still held. -/
theorem c5_keyup_unconditional_reset (c : Controls) :
    (∀ k, (k = "w" ∨ k = "s" ∨ k = "ArrowUp" ∨ k = "ArrowDown") →
        (keyUp k c).inputDirection.z = 0) ∧
      (∀ k, (k = "a" ∨ k = "d" ∨ k = "ArrowLeft" ∨ k = "ArrowRight") →
        (keyUp k c).turnInput = 0) := by
  constructor
  · intro k hk
    rcases hk with h | h | h | h <;> subst h <;> simp [keyUp]
  · intro k hk
    rcases hk with h | h | h | h <;> subst h <;> simp [keyUp]

/-- Witness for the amended C5 at concrete inputs: releasing `"w"` zeroes the
move axis and releasing `"a"` zeroes the turn axis, from arbitrary concrete
controls. -/
theorem c5_keyup_unconditional_reset_witness :
    ((keyUp "w"
        { inputDirection := ⟨0, 0, -1⟩, wantJump := false, yaw := 0,
          turnInput := 1 }).inputDirection.z = 0) ∧
      ((keyUp "a"
        { inputDirection := ⟨0, 0, -1⟩, wantJump := false, yaw := 0,
          turnInput := 1 }).turnInput = 0) :=
  ⟨(c5_keyup_unconditional_reset
      { inputDirection := ⟨0, 0, -1⟩, wantJump := false, yaw := 0,
        turnInput := 1 }).1 "w" (Or.inl rfl),
   (c5_keyup_unconditional_reset
      { inputDirection := ⟨0, 0, -1⟩, wantJump := false, yaw := 0,
        turnInput := 1 }).2 "a" (Or.inl rfl)⟩

/-! ## Loop lemmas for `wrapAngle`. -/

theorem wrapDown_of_le (n : ℕ) (a : ℝ) (h : ¬a > π) : wrapDown n a = a := by
  cases n <;> simp [wrapDown, h]

theorem wrapLift_of_ge (n : ℕ) (a : ℝ) (h : ¬a < -π) : wrapLift n a = a := by
  cases n <;> simp [wrapLift, h]

theorem wrapDown_le (n : ℕ) :
    ∀ a : ℝ, a - π ≤ (n : ℝ) * (2 * π) → wrapDown n a ≤ π := by
  induction n with
  | zero =>
      intro a h
      simp only [Nat.cast_zero, zero_mul] at h
      simpa [wrapDown] using by linarith
  | succ n ih =>
      intro a h
      unfold wrapDown
      split
      · apply ih
        push_cast at h ⊢
        linarith
      · linarith [not_lt.mp (by assumption : ¬a > π)]

theorem wrapDown_gt (n : ℕ) : ∀ a : ℝ, -π < a → -π < wrapDown n a := by
  induction n with
  | zero => intro a h; simpa [wrapDown]
  | succ n ih =>
      intro a h
      unfold wrapDown
      split
      · exact ih _ (by linarith [Real.pi_pos, (by assumption : a > π)])
      · exact h

theorem wrapLift_ge (n : ℕ) :
    ∀ a : ℝ, -π - a ≤ (n : ℝ) * (2 * π) → -π ≤ wrapLift n a := by
  induction n with
  | zero =>
      intro a h
      simp only [Nat.cast_zero, zero_mul] at h
      simpa [wrapLift] using by linarith
  | succ n ih =>
      intro a h
      unfold wrapLift
      split
      · apply ih
        push_cast at h ⊢
        linarith
      · linarith [not_lt.mp (by assumption : ¬a < -π)]

theorem wrapLift_lt (n : ℕ) : ∀ a : ℝ, a < π → wrapLift n a < π := by
  induction n with
  | zero => intro a h; simpa [wrapLift]
  | succ n ih =>
      intro a h
      unfold wrapLift
      split
      · exact ih _ (by linarith [Real.pi_pos, (by assumption : a < -π)])
      · exact h

theorem ceil_fuel_le (r : ℝ) : r ≤ (⌈r / (2 * π)⌉₊ : ℝ) * (2 * π) := by
  have h2pi : (0 : ℝ) < 2 * π := by positivity
  have := Nat.le_ceil (r / (2 * π))
  calc r = r / (2 * π) * (2 * π) := by field_simp
    _ ≤ (⌈r / (2 * π)⌉₊ : ℝ) * (2 * π) := by
        exact mul_le_mul_of_nonneg_right this h2pi.le

/-- `wrapAngle` always lands in the closed interval `[-π, π]`. -/
theorem wrapAngle_range (a : ℝ) : -π ≤ wrapAngle a ∧ wrapAngle a ≤ π := by
  unfold wrapAngle
  have hdownle : wrapDown ⌈(a - π) / (2 * π)⌉₊ a ≤ π :=
    wrapDown_le _ a (ceil_fuel_le (a - π))
  by_cases hgt : -π < a
  · have hdowngt : -π < wrapDown ⌈(a - π) / (2 * π)⌉₊ a := wrapDown_gt _ a hgt
    rw [wrapLift_of_ge _ _ (not_lt.mpr hdowngt.le)]
    exact ⟨hdowngt.le, hdownle⟩
  · have ha : a ≤ -π := not_lt.mp hgt
    have hid : wrapDown ⌈(a - π) / (2 * π)⌉₊ a = a :=
      wrapDown_of_le _ a (by push_neg; linarith [Real.pi_pos])
    rw [hid]
    refine ⟨wrapLift_ge _ a (ceil_fuel_le (-π - a)), ?_⟩
    exact (wrapLift_lt _ a (by linarith [Real.pi_pos])).le

/-- `wrapAngle` is the identity on `[-π, π]`: both while loops are skipped. -/
theorem wrapAngle_of_mem (a : ℝ) (h1 : -π ≤ a) (h2 : a ≤ π) :
    wrapAngle a = a := by
  unfold wrapAngle
  rw [wrapDown_of_le _ _ (not_lt.mpr h2), wrapLift_of_ge _ _ (not_lt.mpr h1)]

/-! ## C9: range and idempotence of `wrapAngle`. -/

/-- Counterexample to C9: `wrapAngle (-π) = -π`, which is not in the
half-open interval `(-π, π]` — both loop guards are strict comparisons, so
`-π` passes through unchanged. -/
theorem c9_wrap_angle_counterexample :
    wrapAngle (-π) = -π ∧ ¬(-π < wrapAngle (-π)) := by
  have h := wrapAngle_of_mem (-π) (le_refl _) (by linarith [Real.pi_pos])
  exact ⟨h, by rw [h]; exact lt_irrefl _⟩

/-- C9 as amended: for every input angle `a`, `wrapAngle a` lies in the
*closed* interval `[-π, π]` (the endpoint `-π` is reachable, e.g. at
`a = -π`), and `wrapAngle` is idempotent: re-applying it changes nothing. -/
theorem c9_wrap_angle_range_idempotent (a : ℝ) :
    (-π ≤ wrapAngle a ∧ wrapAngle a ≤ π) ∧
      wrapAngle (wrapAngle a) = wrapAngle a := by
  obtain ⟨h1, h2⟩ := wrapAngle_range a
  exact ⟨⟨h1, h2⟩, wrapAngle_of_mem _ h1 h2⟩

/-! ## Shared evaluation lemmas for the click-to-move planner. -/

theorem steerToTarget_yaw (s : PointerState) (c : Controls) (v : Vec3) :
    (steerToTarget s c v).2.yaw = c.yaw := by
  simp only [steerToTarget]
  split <;> rfl

theorem steerToTarget_fst (s : PointerState) (c : Controls) (v : Vec3) :
    (steerToTarget s c v).1 = s := by
  simp only [steerToTarget]
  split <;> rfl

theorem length_500 : Vec3.length ⟨5, 0, 0⟩ = 5 := by
  unfold Vec3.length
  rw [show (5 * 5 + 0 * 0 + 0 * 0 : ℝ) = 5 ^ 2 by norm_num]
  exact Real.sqrt_sq (by norm_num)

theorem atan2_one_zero : atan2 1 0 = π / 2 := by
  norm_num [atan2]

theorem wrapAngle_half_pi : wrapAngle (π / 2) = π / 2 :=
  wrapAngle_of_mem _ (by linarith [Real.pi_pos]) (by linarith [Real.pi_pos])

/-! ## C8: one planner step toward a target at `(5,0,0)` from the origin. -/

/-- The end-to-end scenario of C8: a click target at world point `(5,0,0)`,
the character at the origin, yaw `0`, no previous stall bookkeeping, one
`stepClickToMove` with scene delta `dtMs` milliseconds at wall-clock time
`now`. -/
noncomputable def c8Run (dtMs now : ℝ) : PointerState × Controls :=
  stepClickToMove dtMs now ⟨0, 0, 0⟩
    (PointerState.mk false false 0 0 0 0 (some ⟨5, 0, 0⟩) none none none 0)
    initialControls

theorem c8Run_yaw (dtMs now : ℝ) (h : 0 < dtMs) :
    (c8Run dtMs now).2.yaw = π / 2 * min (turnSpeedPtr * (dtMs / 1000)) 1 := by
  have hdt : 0 < dtMs / 1000 := by positivity
  have hsub : ((Vec3.mk 5 0 0).sub ⟨0, 0, 0⟩).setY0 = ⟨5, 0, 0⟩ := by
    simp [Vec3.sub, Vec3.setY0]
  have hnorm : (Vec3.mk 5 0 0).normalize = ⟨1, 0, 0⟩ := by
    unfold Vec3.normalize Vec3.normalizeFromLength
    rw [length_500, if_neg (by norm_num)]
    simp [Vec3.scale]
  unfold c8Run stepClickToMove
  simp only [hsub, length_500, hnorm]
  rw [if_neg (by norm_num [stopDistance])]
  rw [if_pos (by positivity : (0 : ℝ) < dtMs / 1000)]
  simp only [steerToTarget_yaw]
  unfold lerpAngle
  simp only [initialControls]
  rw [atan2_one_zero, show (π / 2 - 0 : ℝ) = π / 2 by ring, wrapAngle_half_pi]
  have hmax : max (turnSpeedPtr * (dtMs / 1000)) 0 =
      turnSpeedPtr * (dtMs / 1000) :=
    max_eq_left (by unfold turnSpeedPtr; positivity)
  rw [hmax]
  ring

/-- Counterexample to C8: with `dt = 0.1 s` (`deltaTime = 100 ms`), the yaw
after one step is `π/2 * min(4·0.1, 1) = π/5 ≈ 0.628`, which exceeds the
claimed bound `turnSpeed·dt = 0.4` — `lerpAngle` multiplies the *fraction*
`min(1, turnSpeed·dt)` by the full angular difference `π/2 > 1`. The yaw does
move toward `π/2`, but by more than `turnSpeed·dt` radians. -/
theorem c8_yaw_bound_counterexample :
    (c8Run 100 0).2.yaw = π / 5 ∧
      turnSpeedPtr * (100 / 1000) < |(c8Run 100 0).2.yaw - 0| := by
  have h := c8Run_yaw 100 0 (by norm_num)
  have heval : (c8Run 100 0).2.yaw = π / 5 := by
    rw [h, show turnSpeedPtr * (100 / 1000) = (2 : ℝ) / 5 by
      norm_num [turnSpeedPtr]]
    rw [min_eq_left (by norm_num)]
    ring
  refine ⟨heval, ?_⟩
  rw [heval]
  have hpi : (3 : ℝ) < π := Real.pi_gt_three
  rw [sub_zero, abs_of_nonneg (le_of_lt (by positivity : (0 : ℝ) < π / 5))]
  norm_num [turnSpeedPtr]
  linarith

/-- C8 as amended: in the same scenario, after one planner step with
`dt > 0` the yaw moves from `0` toward `atan2(5,0) = π/2`, and the new yaw
equals the fraction `min(1, turnSpeed·dt)` of the angular difference `π/2` —
in particular it stays within `[0, π/2]`; the change is *not* bounded by
`turnSpeed·dt` radians but by that fraction of `π/2`. -/
theorem c8_yaw_moves_toward_target (dtMs now : ℝ) (h : 0 < dtMs) :
    (c8Run dtMs now).2.yaw = π / 2 * min (turnSpeedPtr * (dtMs / 1000)) 1 ∧
      0 ≤ (c8Run dtMs now).2.yaw ∧ (c8Run dtMs now).2.yaw ≤ π / 2 := by
  have hyaw := c8Run_yaw dtMs now h
  have hmin0 : 0 ≤ min (turnSpeedPtr * (dtMs / 1000)) 1 := by
    have : (0 : ℝ) < turnSpeedPtr * (dtMs / 1000) := by
      norm_num [turnSpeedPtr]
      positivity
    positivity
  have hmin1 : min (turnSpeedPtr * (dtMs / 1000)) 1 ≤ 1 := min_le_right _ _
  refine ⟨hyaw, ?_, ?_⟩
  · rw [hyaw]
    have : (0 : ℝ) ≤ π / 2 := by linarith [Real.pi_pos]
    exact mul_nonneg this hmin0
  · rw [hyaw]
    calc π / 2 * min (turnSpeedPtr * (dtMs / 1000)) 1 ≤ π / 2 * 1 := by
          have : (0 : ℝ) ≤ π / 2 := by linarith [Real.pi_pos]
          exact mul_le_mul_of_nonneg_left hmin1 this
      _ = π / 2 := mul_one _

/-- Witness for the amended C8 at `deltaTime = 100 ms`. -/
theorem c8_yaw_moves_toward_target_witness :
    (0 : ℝ) < 100 ∧
      ((c8Run 100 0).2.yaw = π / 2 * min (turnSpeedPtr * (100 / 1000)) 1 ∧
        0 ≤ (c8Run 100 0).2.yaw ∧ (c8Run 100 0).2.yaw ≤ π / 2) :=
  ⟨by norm_num, c8_yaw_moves_toward_target 100 0 (by norm_num)⟩

/-! ## Further shared lemmas: lengths, normalization, local rotation. -/

theorem length_scale (v : Vec3) (k : ℝ) :
    (v.scale k).length = |k| * v.length := by
  unfold Vec3.scale Vec3.length
  rw [show v.x * k * (v.x * k) + v.y * k * (v.y * k) + v.z * k * (v.z * k) =
    k ^ 2 * (v.x * v.x + v.y * v.y + v.z * v.z) by ring]
  rw [Real.sqrt_mul (sq_nonneg k), Real.sqrt_sq_eq_abs]

theorem length_normalize (v : Vec3) (h : 0 < v.length) :
    v.normalize.length = 1 := by
  unfold Vec3.normalize Vec3.normalizeFromLength
  by_cases h01 : v.length = 0 ∨ v.length = 1
  · rcases h01 with h0 | h1
    · exact absurd h0 (ne_of_gt h)
    · rw [if_pos (Or.inr h1), h1]
  · rw [if_neg h01, length_scale, abs_of_nonneg
      (le_of_lt (by positivity : (0 : ℝ) < 1 / v.length))]
    field_simp

theorem normalize_y_zero (v : Vec3) (hy : v.y = 0) : v.normalize.y = 0 := by
  unfold Vec3.normalize Vec3.normalizeFromLength
  split
  · exact hy
  · simp [Vec3.scale, hy]

theorem rotate_local_length (n : Vec3) (hy : n.y = 0) (yaw : ℝ) :
    Vec3.length ⟨n.x * Real.cos yaw - n.z * Real.sin yaw, 0,
      n.x * Real.sin yaw + n.z * Real.cos yaw⟩ = n.length := by
  unfold Vec3.length
  dsimp only
  rw [hy]
  congr 1
  have h := Real.sin_sq_add_cos_sq yaw
  linear_combination (n.x * n.x + n.z * n.z) * h

/-- The steering write of lines 401-414 always has magnitude exactly
`clickToMoveStrength` when the rotated direction is a unit horizontal
vector. -/
theorem steerToTarget_length (s : PointerState) (c : Controls) (n : Vec3)
    (hny : n.y = 0) (hnlen : n.length = 1) :
    Vec3.length ((steerToTarget s c n).2.inputDirection) =
      clickToMoveStrength := by
  have hloc : Vec3.length ⟨n.x * Real.cos c.yaw - n.z * Real.sin c.yaw, 0,
      n.x * Real.sin c.yaw + n.z * Real.cos c.yaw⟩ = 1 := by
    rw [rotate_local_length n hny c.yaw, hnlen]
  simp only [steerToTarget]
  rw [hloc, if_pos (by norm_num : (1 : ℝ) > 0)]
  rw [length_scale, hloc]
  norm_num [clickToMoveStrength]

theorem length_unit_x : Vec3.length ⟨1, 0, 0⟩ = 1 := by
  unfold Vec3.length
  norm_num

theorem length_half_x : Vec3.length ⟨1 / 2, 0, 0⟩ = 1 / 2 := by
  unfold Vec3.length
  rw [show (1 / 2 * (1 / 2) + 0 * 0 + 0 * 0 : ℝ) = (1 / 2) ^ 2 by norm_num]
  exact Real.sqrt_sq (by norm_num)

/-! ## C6: stall detection abandons the target and zeroes the intent. -/

/-- C6: on a planner step with an active target at distance at least the stop
distance, when the tracked best distance `ld` has not improved by more than
`stuckEpsilon` (≈0.05) on this step and the time since the last improvement
exceeds `stuckTimeoutMs` (≈600 ms), the target is cleared and the shared
movement intent vector is zeroed — no error is raised, the step simply
returns. -/
theorem c6_stall_clears_target (deltaTimeMs now : ℝ) (pos : Vec3)
    (s : PointerState) (c : Controls) (tp : Vec3) (ld : ℝ)
    (htp : s.targetPoint = some tp)
    (hfar : ¬((tp.sub pos).setY0.length < stopDistance))
    (hld : s.lastDistance = some ld)
    (hnoimp : ¬((tp.sub pos).setY0.length < ld - stuckEpsilon))
    (htime : now - s.lastDistanceTimeMs > stuckTimeoutMs) :
    (stepClickToMove deltaTimeMs now pos s c).1.targetPoint = none ∧
      (stepClickToMove deltaTimeMs now pos s c).2.inputDirection =
        Vec3.zero := by
  unfold stepClickToMove
  simp only [htp]
  rw [if_neg hfar]
  simp only [hld]
  rw [if_neg hnoimp, if_pos htime]
  exact ⟨rfl, rfl⟩

/-- Witness for C6 at a concrete input: target `(5,0,0)`, character at the
origin (distance 5), best distance seen also 5, last improvement at time 0,
current time 1000 ms. -/
theorem c6_stall_clears_target_witness :
    ((PointerState.mk false false 0 0 0 0 (some ⟨5, 0, 0⟩) none none (some 5)
        0).targetPoint = some ⟨5, 0, 0⟩) ∧
      (¬(((Vec3.mk 5 0 0).sub ⟨0, 0, 0⟩).setY0.length < stopDistance)) ∧
      ((1000 : ℝ) - 0 > stuckTimeoutMs) ∧
      ((stepClickToMove 16 1000 ⟨0, 0, 0⟩
        (PointerState.mk false false 0 0 0 0 (some ⟨5, 0, 0⟩) none none
          (some 5) 0) initialControls).1.targetPoint = none ∧
       (stepClickToMove 16 1000 ⟨0, 0, 0⟩
        (PointerState.mk false false 0 0 0 0 (some ⟨5, 0, 0⟩) none none
          (some 5) 0) initialControls).2.inputDirection = Vec3.zero) := by
  have hsub : ((Vec3.mk 5 0 0).sub ⟨0, 0, 0⟩).setY0 = ⟨5, 0, 0⟩ := by
    simp [Vec3.sub, Vec3.setY0]
  have hfar : ¬(((Vec3.mk 5 0 0).sub ⟨0, 0, 0⟩).setY0.length < stopDistance) := by
    rw [hsub, length_500]
    norm_num [stopDistance]
  have hnoimp :
      ¬(((Vec3.mk 5 0 0).sub ⟨0, 0, 0⟩).setY0.length < 5 - stuckEpsilon) := by
    rw [hsub, length_500]
    norm_num [stuckEpsilon]
  have htime : (1000 : ℝ) -
      (PointerState.mk false false 0 0 0 0 (some ⟨5, 0, 0⟩) none none (some 5)
        (0 : ℝ)).lastDistanceTimeMs > stuckTimeoutMs := by
    norm_num [stuckTimeoutMs]
  exact ⟨rfl, hfar, by norm_num [stuckTimeoutMs],
    c6_stall_clears_target 16 1000 ⟨0, 0, 0⟩
      (PointerState.mk false false 0 0 0 0 (some ⟨5, 0, 0⟩) none none (some 5)
        0) initialControls ⟨5, 0, 0⟩ 5 rfl hfar rfl hnoimp htime⟩

/-! ## C7: the steering magnitude is constant; there is no slow-radius
taper. -/

/-- Counterexample to C7: with an active target at horizontal distance
`0.5` — inside the spec's slow radius of `1.2` but beyond the stop distance
`0.35` — the planner writes a movement intent of magnitude exactly
`clickToMoveStrength` (`0.5`), the full configured strength. A linear taper
to zero within the slow radius would require a magnitude strictly below the
strength here; no such taper exists anywhere in `stepClickToMove`. -/
theorem c7_no_taper_counterexample :
    (((Vec3.mk (1 / 2) 0 0).sub ⟨0, 0, 0⟩).setY0.length = 1 / 2) ∧
      (stopDistance ≤ 1 / 2 ∧ (1 / 2 : ℝ) < 6 / 5) ∧
      (Vec3.length ((stepClickToMove 0 0 ⟨0, 0, 0⟩
        (PointerState.mk false false 0 0 0 0 (some ⟨1 / 2, 0, 0⟩) none none
          none 0) initialControls).2.inputDirection) = clickToMoveStrength) ∧
      ¬(Vec3.length ((stepClickToMove 0 0 ⟨0, 0, 0⟩
        (PointerState.mk false false 0 0 0 0 (some ⟨1 / 2, 0, 0⟩) none none
          none 0) initialControls).2.inputDirection) <
          clickToMoveStrength) := by
  have hsub : ((Vec3.mk (1 / 2) 0 0).sub ⟨0, 0, 0⟩).setY0 = ⟨1 / 2, 0, 0⟩ := by
    simp [Vec3.sub, Vec3.setY0]
  have hdist : ((Vec3.mk (1 / 2) 0 0).sub ⟨0, 0, 0⟩).setY0.length = 1 / 2 := by
    rw [hsub, length_half_x]
  have hnorm : (Vec3.mk (1 / 2) 0 0).normalize = ⟨1, 0, 0⟩ := by
    unfold Vec3.normalize Vec3.normalizeFromLength
    rw [length_half_x, if_neg (by norm_num)]
    simp [Vec3.scale]
  have hstep : Vec3.length ((stepClickToMove 0 0 ⟨0, 0, 0⟩
      (PointerState.mk false false 0 0 0 0 (some ⟨1 / 2, 0, 0⟩) none none
        none 0) initialControls).2.inputDirection) = clickToMoveStrength := by
    unfold stepClickToMove
    simp only [hsub, length_half_x, hnorm]
    rw [if_neg (by norm_num [stopDistance])]
    rw [if_neg (by norm_num : ¬((0 : ℝ) / 1000 > 0))]
    exact steerToTarget_length _ _ ⟨1, 0, 0⟩ rfl length_unit_x
  exact ⟨hdist, ⟨by norm_num [stopDistance], by norm_num⟩, hstep,
    by rw [hstep]; exact lt_irrefl _⟩

/-- C7 as amended: on every planner step with an active target beyond the
stop distance that is not abandoned by stall detection, after converting the
world-space approach direction into body-local axes with the current yaw, the
planner scales the local vector so its magnitude equals the configured
strength `clickToMoveStrength` — a *constant* `0.5`, with no slow-radius
taper: the magnitude is the same at every distance. -/
theorem c7_constant_steering_strength (deltaTimeMs now : ℝ) (pos : Vec3)
    (s : PointerState) (c : Controls) (tp : Vec3)
    (htp : s.targetPoint = some tp)
    (hfar : ¬((tp.sub pos).setY0.length < stopDistance))
    (hnostall : s.lastDistance = none ∨
      ∃ ld, s.lastDistance = some ld ∧
        ((tp.sub pos).setY0.length < ld - stuckEpsilon ∨
          ¬(now - s.lastDistanceTimeMs > stuckTimeoutMs))) :
    Vec3.length ((stepClickToMove deltaTimeMs now pos s c).2.inputDirection)
      = clickToMoveStrength := by
  have hwy : ((tp.sub pos).setY0).y = 0 := rfl
  have hwlen : 0 < ((tp.sub pos).setY0).length := by
    by_contra hle
    push_neg at hle
    apply hfar
    calc ((tp.sub pos).setY0).length ≤ 0 := hle
      _ < stopDistance := by norm_num [stopDistance]
  have hny : ((tp.sub pos).setY0).normalize.y = 0 :=
    normalize_y_zero _ hwy
  have hnlen : ((tp.sub pos).setY0).normalize.length = 1 :=
    length_normalize _ hwlen
  unfold stepClickToMove
  simp only [htp]
  rw [if_neg hfar]
  rcases hnostall with hld | ⟨ld, hld, hcase⟩
  · simp only [hld]
    exact steerToTarget_length _ _ _ hny hnlen
  · simp only [hld]
    by_cases himp : ((tp.sub pos).setY0).length < ld - stuckEpsilon
    · rw [if_pos himp]
      exact steerToTarget_length _ _ _ hny hnlen
    · rcases hcase with hcase | hcase
      · exact absurd hcase himp
      · rw [if_neg himp, if_neg hcase]
        exact steerToTarget_length _ _ _ hny hnlen

/-- Witness for the amended C7 at a concrete input: target `(5,0,0)` from
the origin, no stall bookkeeping yet. -/
theorem c7_constant_steering_strength_witness :
    ((PointerState.mk false false 0 0 0 0 (some ⟨5, 0, 0⟩) none none none
        0).targetPoint = some ⟨5, 0, 0⟩) ∧
      Vec3.length ((stepClickToMove 16 0 ⟨0, 0, 0⟩
        (PointerState.mk false false 0 0 0 0 (some ⟨5, 0, 0⟩) none none none
          0) initialControls).2.inputDirection) = clickToMoveStrength := by
  have hsub : ((Vec3.mk 5 0 0).sub ⟨0, 0, 0⟩).setY0 = ⟨5, 0, 0⟩ := by
    simp [Vec3.sub, Vec3.setY0]
  have hfar : ¬(((Vec3.mk 5 0 0).sub ⟨0, 0, 0⟩).setY0.length < stopDistance) := by
    rw [hsub, length_500]
    norm_num [stopDistance]
  exact ⟨rfl,
    c7_constant_steering_strength 16 0 ⟨0, 0, 0⟩
      (PointerState.mk false false 0 0 0 0 (some ⟨5, 0, 0⟩) none none none 0)
      initialControls ⟨5, 0, 0⟩ rfl hfar (Or.inl rfl)⟩

end WaterTread
